import Mathlib

/-!
Shallow embedding of the extension process supervisor in
`src/ulauncher/modes/extensions/ExtensionRunner.py`.

The supervisor state (`RunnerState`) carries the table of running extension
processes (`extension_procs`, a map from extension id to `ExtensionProc`) and
the error store (`ExtensionDb`).  The asynchronous callbacks of the Python
source (`handle_exit`, `handle_stderr`, `confirm_termination`) become pure
functions of the supervisor state and of the event data the GLib main loop
would hand them (the subprocess snapshot, the line read from stderr, the
current time, the liveness of the process).  Python exceptions escaping a
function are modelled with `Except`, the error carrying the exception name
together with the state at the moment the exception escapes.

The collaborators that are not part of this source tree (`ExtensionDb`,
`ExtensionManifest`, `ulauncher.utils.timer`) are modelled from the spec; each
such definition says so in its doc comment.
-/

/-- One record of the error store: the persisted error classification of one
extension.  An empty `error_type` plays the role of the spec's `None`
classification (the Python source resets with `error_type=""`). -/
structure ExtRecord where
  error_type : String
  error_message : String
deriving DecidableEq, Repr

/-- Modelled from the spec: the Error Store contract of §6.  `mem` is the
in-memory map of records (`get_record` creates an empty record if absent,
which the total function models by defaulting to the empty record), and
`disk` is the durable storage that `save` synchronously writes. -/
structure ExtensionDb where
  mem : String → ExtRecord
  disk : String → ExtRecord

/-- Modelled from the spec: `getRecord(extensionId)` returns the in-memory
record, creating an empty one if absent. -/
def ExtensionDb.get_record (db : ExtensionDb) (ext_id : String) : ExtRecord :=
  db.mem ext_id

/-- Mutating the record returned by `get_record` (the Python
`record.update(error_message=..., error_type=...)`) updates the in-memory map
only; durability requires a separate `save`. -/
def ExtensionDb.update_record (db : ExtensionDb) (ext_id error_type error_message : String) :
    ExtensionDb :=
  { db with mem := fun k => if k = ext_id then ⟨error_type, error_message⟩ else db.mem k }

/-- Modelled from the spec: `save()` persists all in-memory records to durable
storage synchronously. -/
def ExtensionDb.save (db : ExtensionDb) : ExtensionDb :=
  { db with disk := db.mem }

/-- Snapshot of a `Gio.Subprocess` as seen by the exit listener: `sid` is the
object identity (Python `id(...)`, used by the stale-notification guard),
`signaled`/`term_sig`/`exit_status` are `get_if_signaled`/`get_term_sig`/
`get_exit_status`. -/
structure Subprocess where
  sid : Nat
  signaled : Bool
  term_sig : Int
  exit_status : Int
deriving DecidableEq, Repr

/-- The `ExtensionProc` named tuple of the source: one running extension.
`recent_errors` models the `deque(maxlen=1)` of retained stderr lines;
`error_stream` stands for the `Gio.DataInputStream` handle. -/
structure ExtensionProc where
  ext_id : String
  subprocess : Subprocess
  start_time : ℚ
  error_stream : Nat
  recent_errors : List String
deriving DecidableEq, Repr

/-- `deque(maxlen=1).append x`: the single slot keeps only the new element. -/
def deque1_append (_d : List String) (x : String) : List String := [x]

/-- The supervisor state: the `extension_procs` table, the error store
`ext_db`, and the `verbose` flag read from the options at construction. -/
structure RunnerState where
  extension_procs : String → Option ExtensionProc
  ext_db : ExtensionDb
  verbose : Bool

/-- Modelled from the spec: the outcome of the Manifest Provider's
load-and-validate step (`ExtensionManifest.load` / `validate` /
`check_compatibility`, not part of this source tree).  `invalid` is an
`ExtensionManifestError` escaping `validate`, `incompatible` is an
`ExtensionIncompatibleWarning` escaping `check_compatibility`, and `ok`
carries the manifest's keyword triggers and the stored key-value user
preferences used to compose the child environment. -/
inductive ManifestOutcome where
  | invalid (msg : String)
  | incompatible (msg : String)
  | ok (triggers : List (String × String)) (preferences : List (String × String))

/-- The outcome of `launcher.spawnv`: `spawn_error` is a `GLib.Error` escaping
the spawn call (propagated, untyped, by `run`), `subproc` the created process,
`has_stderr_pipe` whether `get_stderr_pipe()` returned a readable stream,
`stream_id` the identity of that stream, and `t_start` the `time()` reading
taken just before spawning. -/
structure SpawnOutcome where
  spawn_error : Option String
  subproc : Subprocess
  has_stderr_pipe : Bool
  stream_id : Nat
  t_start : ℚ

/-- Python truthiness of the value returned by `read_line_finish_utf8`:
`None` (end-of-stream) and the empty line are both falsy. -/
def py_truthy : Option String → Bool
  | none => false
  | some s => !s.isEmpty

/-- Python `needle in hay` on strings, on the character list of `hay`. -/
def char_list_contains (needle : List Char) : List Char → Bool
  | [] => needle.isEmpty
  | c :: t => needle.isPrefixOf (c :: t) || char_list_contains needle t

/-- Python `needle in hay` for strings. -/
def str_contains (hay needle : String) : Bool :=
  char_list_contains needle.toList hay.toList

/-- Python `s.split(sep)` for a one-character separator, by structural
recursion on the character list: every occurrence of the separator splits,
empty fields are kept, and a string without the separator yields the
one-element list.  (Extensionally this is `String.splitOn` for a
one-character separator; that core function is defined by well-founded
recursion, which the kernel cannot evaluate, so the embedding carries its
own structural definition.) -/
def py_split_char (c : Char) : List Char → List String
  | [] => [""]
  | x :: t =>
    let r := py_split_char c t
    if x = c then "" :: r
    else
      match r with
      | [] => [String.mk [x]]
      | h :: rt => String.mk (x :: h.data) :: rt

/-- The single-quote character, the separator of `lasterr.split("'")`. -/
def quote_char : Char := '\x27'

/-- `signal.SIGTERM` on Linux. -/
def SIGTERM : Nat := 15

/-- `signal.SIGKILL` on Linux. -/
def SIGKILL : Nat := 9

/-- The observable actions of the termination protocol, in the order `stop`
performs them: removing the record from the table, sending a signal to a
process, and scheduling the delayed liveness check for a process. -/
inductive StopAction where
  | pop_record (ext_id : String)
  | send_signal (sid : Nat) (sig : Nat)
  | schedule_check (delay : ℚ) (sid : Nat)
deriving DecidableEq, Repr

/-- Whether a `StopAction` schedules the delayed liveness check. -/
def StopAction.is_schedule : StopAction → Bool
  | .schedule_check _ _ => true
  | _ => false

/-- Whether a `StopAction` sends a signal. -/
def StopAction.is_send : StopAction → Bool
  | .send_signal _ _ => true
  | _ => false

namespace ExtensionRunner

/-- `is_running`: membership test against the `extension_procs` table. -/
def is_running (s : RunnerState) (ext_id : String) : Bool :=
  (s.extension_procs ext_id).isSome

/-- `set_extension_error`: update the extension's record in the error store
and `save()` the store. -/
def set_extension_error (s : RunnerState) (ext_id error_type message : String) : RunnerState :=
  { s with ext_db := (s.ext_db.update_record ext_id error_type message).save }

/-- Removing `ext_id` from the `extension_procs` table
(`self.extension_procs.pop(ext_id, None)`). -/
def pop_proc (s : RunnerState) (ext_id : String) : RunnerState :=
  let table := fun k => if k = ext_id then none else s.extension_procs k
  { s with extension_procs := table }

/-- The child environment composed by `run` (lines 73-81 of the source): the
`VERBOSE` flag, the `PYTHONPATH`, and the `EXTENSION_PREFERENCES` blob
merging keyword triggers and stored preferences (preferences override
triggers on key collision, as in `{**triggers, **prefs}`).  The JSON
serialisation is left as the association list itself. -/
def spawn_env (verbose : Bool) (app_path : String)
    (triggers preferences : List (String × String)) :
    String × String × List (String × String) :=
  (if verbose then "1" else "0", app_path,
    (triggers.filter fun kv => (preferences.lookup kv.1).isNone) ++ preferences)

/-- `run(ext_id, ext_path)` of the source, lines 52-104.  The manifest
outcome and the spawn outcome are the environment's inputs.  A normal return
is `.ok`; a propagated exception (`GLib.Error` from `spawnv`, or the
`AssertionError` for a missing stderr pipe) is `.error`, carrying the state
at the moment the exception escapes. -/
def run (s : RunnerState) (ext_id : String) (manifest : ManifestOutcome)
    (sp : SpawnOutcome) : Except (String × RunnerState) RunnerState :=
  if is_running s ext_id then .ok s
  else
    let s := { s with ext_db := s.ext_db.update_record ext_id "" "" }
    match manifest with
    | .invalid msg => .ok (set_extension_error s ext_id "Invalid" msg)
    | .incompatible msg => .ok (set_extension_error s ext_id "Incompatible" msg)
    | .ok _triggers _preferences =>
      match sp.spawn_error with
      | some e => .error (e, s)
      | none =>
        if sp.has_stderr_pipe then
          let proc : ExtensionProc := ⟨ext_id, sp.subproc, sp.t_start, sp.stream_id, []⟩
          let table := fun k => if k = ext_id then some proc else s.extension_procs k
          .ok { s with extension_procs := table }
        else
          .error ("AssertionError: Subprocess must be created with Gio.SubprocessFlags.STDERR_PIPE", s)

/-- `handle_stderr` of the source, lines 109-119: `output` is the line
delivered by `read_line_finish_utf8` (`none` at end-of-stream).  The boolean
of the result records whether `read_stderr_line` was called again (the
listener re-armed). -/
def handle_stderr (s : RunnerState) (ext_id : String) (output : Option String) :
    RunnerState × Bool :=
  match s.extension_procs ext_id with
  | none => (s, false)
  | some proc =>
    let proc' := if py_truthy output then
        { proc with recent_errors := deque1_append proc.recent_errors (output.getD "") }
      else proc
    let table := fun k => if k = ext_id then some proc' else s.extension_procs k
    ({ s with extension_procs := table }, true)

/-- The message `Extension "{ext_id}" was terminated with signal {sig}`. -/
def signal_msg (ext_id : String) (sig : Int) : String :=
  "Extension \x22" ++ ext_id ++ "\x22 was terminated with signal " ++ toString sig

/-- The message `Extension "{ext_id}" exited instantly with code {code}`. -/
def instant_msg (ext_id : String) (code : Int) : String :=
  "Extension \x22" ++ ext_id ++ "\x22 exited instantly with code " ++ toString code

/-- The message `Extension "{ext_id}" exited with code {code} after {uptime}
seconds.` -/
def exited_msg (ext_id : String) (code : Int) (uptime : ℚ) : String :=
  "Extension \x22" ++ ext_id ++ "\x22 exited with code " ++ toString code ++
    " after " ++ toString uptime ++ " seconds."

/-- `handle_exit` of the source, lines 121-161, at wall-clock time `now`.
`lasterr.split("'")[1]` is Python list indexing: when the split has no
element 1 (no single quote in the line) an `IndexError` escapes, carrying the
state unchanged (nothing is mutated before that point). -/
def handle_exit (s : RunnerState) (subprocess : Subprocess) (ext_id : String)
    (now : ℚ) : Except (String × RunnerState) RunnerState :=
  if subprocess.signaled && (s.extension_procs ext_id).isSome then
    .ok (pop_proc
      (set_extension_error s ext_id "Terminated" (signal_msg ext_id subprocess.term_sig)) ext_id)
  else
    match s.extension_procs ext_id with
    | none => .ok s
    | some proc =>
      if proc.subprocess.sid ≠ subprocess.sid then .ok s
      else
        let uptime_seconds := now - proc.start_time
        let code := subprocess.exit_status
        if uptime_seconds < 1 then
          let lasterr := String.intercalate "\n" proc.recent_errors
          if str_contains lasterr "ModuleNotFoundError" then
            match (py_split_char quote_char lasterr.toList).get? 1 with
            | none => .error ("IndexError", s)
            | some package_name =>
              if package_name = "ulauncher" then
                .ok (pop_proc
                  (set_extension_error s ext_id "Incompatible" (instant_msg ext_id code)) ext_id)
              else if !package_name.isEmpty then
                .ok (pop_proc (set_extension_error s ext_id "MissingModule" package_name) ext_id)
              else
                .ok (pop_proc s ext_id)
          else
            .ok (pop_proc
              (set_extension_error s ext_id "Terminated" (instant_msg ext_id code)) ext_id)
        else
          .ok (pop_proc
            (set_extension_error s ext_id "Exited" (exited_msg ext_id code uptime_seconds)) ext_id)

/-- `stop(ext_id)` of the source, lines 163-174, returning the new state and
the ordered list of actions performed.  The `timer(0.5, ...)` call is
modelled from the spec as scheduling a single one-shot delayed check. -/
def stop (s : RunnerState) (ext_id : String) : RunnerState × List StopAction :=
  match s.extension_procs ext_id with
  | none => (s, [])
  | some proc =>
    (pop_proc s ext_id,
      [.pop_record ext_id,
       .send_signal proc.subprocess.sid SIGTERM,
       .schedule_check (1/2) proc.subprocess.sid])

/-- `confirm_termination` of the source, lines 176-182: `alive` is the Python
truthiness of `proc.subprocess.get_identifier()`.  The result is the list of
signals sent. -/
def confirm_termination (proc : ExtensionProc) (alive : Bool) : List StopAction :=
  if alive then [.send_signal proc.subprocess.sid SIGKILL] else []

end ExtensionRunner

/-- The state of a freshly constructed supervisor over an empty error store. -/
def init_state : RunnerState :=
  { extension_procs := fun _ => none
    ext_db := ⟨fun _ => ⟨"", ""⟩, fun _ => ⟨"", ""⟩⟩
    verbose := false }

/-- Extract the state from a finished call, whether it returned or raised. -/
def except_state (e : Except (String × RunnerState) RunnerState) : RunnerState :=
  match e with
  | .ok s => s
  | .error (_, s) => s

/-! Concrete fixtures used by the closed instances below. -/

/-- A spawn outcome that succeeds and provides the stderr pipe. -/
def spawn_ok : SpawnOutcome := ⟨none, ⟨1, false, 0, 0⟩, true, 7, 0⟩

/-- A spawn outcome that succeeds but yields no readable stderr pipe. -/
def spawn_nopipe : SpawnOutcome := ⟨none, ⟨1, false, 0, 0⟩, false, 7, 0⟩

/-- The state after a `run` of `myext` whose manifest failed validation. -/
def c1_mid : RunnerState :=
  except_state (ExtensionRunner.run init_state "myext" (.invalid "bad manifest") spawn_ok)

/-- The state after a second `run` of `myext` that spawned successfully. -/
def c1_final : RunnerState :=
  except_state (ExtensionRunner.run c1_mid "myext" (.ok [] []) spawn_ok)

/-- A process whose stderr line names a missing third-party module. -/
def w3_proc : ExtensionProc :=
  ⟨"myext", ⟨2, false, 0, 1⟩, 0, 7, ["ModuleNotFoundError: No module named \x27requests\x27"]⟩

/-- A supervisor running exactly `w3_proc`. -/
def w3_state : RunnerState :=
  { init_state with extension_procs := fun k => if k = "myext" then some w3_proc else none }

/-- The exit snapshot of `w3_proc` (normal exit, code 1). -/
def w3_sub : Subprocess := ⟨2, false, 0, 1⟩

/-- A process whose stderr line quotes an empty module name. -/
def c3_proc : ExtensionProc :=
  ⟨"e", ⟨2, false, 0, 1⟩, 0, 7, ["ModuleNotFoundError: No module named \x27\x27"]⟩

/-- A supervisor running exactly `c3_proc`. -/
def c3_state : RunnerState :=
  { init_state with extension_procs := fun k => if k = "e" then some c3_proc else none }

/-- The exit snapshot of `c3_proc`. -/
def c3_sub : Subprocess := ⟨2, false, 0, 1⟩

/-- A process that ran for five seconds and exited with code 0. -/
def w4_proc : ExtensionProc := ⟨"e", ⟨5, false, 0, 0⟩, 0, 7, []⟩

/-- A supervisor running exactly `w4_proc`. -/
def w4_state : RunnerState :=
  { init_state with extension_procs := fun k => if k = "e" then some w4_proc else none }

/-- The exit snapshot of `w4_proc` (normal exit, code 0). -/
def w4_sub : Subprocess := ⟨5, false, 0, 0⟩

/-- A running process used by the stop/termination instances. -/
def w5_proc : ExtensionProc := ⟨"e", ⟨6, false, 0, 0⟩, 0, 7, []⟩

/-- A supervisor running exactly `w5_proc`. -/
def w5_state : RunnerState :=
  { init_state with extension_procs := fun k => if k = "e" then some w5_proc else none }

/-- A process with an empty retained stderr buffer, for the end-of-stream
instance. -/
def c6_proc : ExtensionProc := ⟨"e", ⟨3, false, 0, 0⟩, 0, 7, []⟩

/-- A supervisor running exactly `c6_proc`. -/
def c6_state : RunnerState :=
  { init_state with extension_procs := fun k => if k = "e" then some c6_proc else none }

/-- A process whose stderr line has the module-not-found marker but no quote. -/
def c9_proc : ExtensionProc := ⟨"e", ⟨4, false, 0, 9⟩, 0, 7, ["ModuleNotFoundError"]⟩

/-- A supervisor running exactly `c9_proc`. -/
def c9_state : RunnerState :=
  { init_state with extension_procs := fun k => if k = "e" then some c9_proc else none }

/-- The exit snapshot of `c9_proc`. -/
def c9_sub : Subprocess := ⟨4, false, 0, 9⟩

/-- The exit snapshot of a process killed by SIGKILL after a `stop`. -/
def w10_sub : Subprocess := ⟨6, true, 9, 0⟩

/-! Theorems. -/

/-- A state whose table lacks `ext_id` when `is_running` reports false. -/
theorem not_running_none (s : RunnerState) (ext_id : String)
    (h : ExtensionRunner.is_running s ext_id = false) :
    s.extension_procs ext_id = none := by
  cases hv : s.extension_procs ext_id with
  | none => rfl
  | some p => rw [ExtensionRunner.is_running, hv] at h; simp at h

/-- Claim C1 (amended): after a `run` on a not-yet-running extension id
returns normally, exactly one of {ProcessRecord registered, in-memory
ErrorRecord with non-None type} holds — never both, never neither.  (The
reset at the start of `run` clears the in-memory record but is not itself
persisted; see the counterexample for the persisted store.) -/
theorem run_exclusive_memory_error
    (s : RunnerState) (ext_id : String) (m : ManifestOutcome) (sp : SpawnOutcome)
    (s' : RunnerState)
    (hrun : ExtensionRunner.is_running s ext_id = false)
    (hok : ExtensionRunner.run s ext_id m sp = .ok s') :
    ((ExtensionRunner.is_running s' ext_id).xor
      ((s'.ext_db.mem ext_id).error_type != "")) = true := by
  cases m with
  | invalid msg =>
    simp [ExtensionRunner.run, hrun] at hok
    subst hok
    simp [ExtensionRunner.is_running] at hrun
    simp [ExtensionRunner.is_running, ExtensionRunner.set_extension_error,
      ExtensionDb.update_record, ExtensionDb.save, hrun]
  | incompatible msg =>
    simp [ExtensionRunner.run, hrun] at hok
    subst hok
    simp [ExtensionRunner.is_running] at hrun
    simp [ExtensionRunner.is_running, ExtensionRunner.set_extension_error,
      ExtensionDb.update_record, ExtensionDb.save, hrun]
  | ok tr pr =>
    cases hse : sp.spawn_error with
    | some e => simp [ExtensionRunner.run, hrun, hse] at hok
    | none =>
      by_cases hpipe : sp.has_stderr_pipe
      · simp [ExtensionRunner.run, hrun, hse, hpipe] at hok
        subst hok
        simp [ExtensionRunner.is_running, ExtensionDb.update_record]
      · simp [ExtensionRunner.run, hrun, hse, hpipe] at hok

/-- Claim C1, witness: the exclusivity instantiated at a concrete failing
`run` on the initial state. -/
theorem run_exclusive_memory_error_witness :
    ExtensionRunner.is_running init_state "ext" = false ∧
    ((ExtensionRunner.is_running
        (except_state (ExtensionRunner.run init_state "ext" (.invalid "bad") spawn_ok)) "ext").xor
      (((except_state (ExtensionRunner.run init_state "ext" (.invalid "bad") spawn_ok)).ext_db.mem
          "ext").error_type != "")) = true :=
  ⟨by decide,
   run_exclusive_memory_error init_state "ext" (.invalid "bad") spawn_ok _ (by decide) (by rfl)⟩

/-- Claim C1, counterexample to the claim as stated: a `run` that fails
validation persists an `Invalid` record; a second `run` that spawns
successfully resets the in-memory record but never saves, so after it
returns the ProcessRecord is registered AND the persisted (`disk`)
ErrorRecord still has the non-None type `Invalid` — "never both" fails for
the persisted store. -/
theorem run_stale_disk_error_counterexample :
    ExtensionRunner.run c1_mid "myext" (.ok [] []) spawn_ok = .ok c1_final ∧
    ExtensionRunner.is_running c1_final "myext" = true ∧
    (c1_final.ext_db.disk "myext").error_type = "Invalid" ∧
    ((ExtensionRunner.is_running c1_final "myext").xor
      ((c1_final.ext_db.disk "myext").error_type != "")) = false :=
  ⟨rfl, by decide, by decide, by decide⟩

/-- Claim C2: a `run` whose manifest load-and-validate step fails with a
validation error classifies the extension `Invalid` with the failure's
message, persists it, and spawns nothing (the process table is untouched);
a compatibility warning likewise yields `Incompatible` without spawning. -/
theorem run_manifest_failure_classification
    (s : RunnerState) (ext_id msg : String) (sp : SpawnOutcome)
    (h : ExtensionRunner.is_running s ext_id = false) :
    (∃ s1, ExtensionRunner.run s ext_id (.invalid msg) sp = .ok s1 ∧
       s1.extension_procs = s.extension_procs ∧
       s1.extension_procs ext_id = none ∧
       s1.ext_db.mem ext_id = ⟨"Invalid", msg⟩ ∧
       s1.ext_db.disk ext_id = ⟨"Invalid", msg⟩) ∧
    (∃ s2, ExtensionRunner.run s ext_id (.incompatible msg) sp = .ok s2 ∧
       s2.extension_procs = s.extension_procs ∧
       s2.extension_procs ext_id = none ∧
       s2.ext_db.mem ext_id = ⟨"Incompatible", msg⟩ ∧
       s2.ext_db.disk ext_id = ⟨"Incompatible", msg⟩) := by
  constructor
  · refine ⟨ExtensionRunner.set_extension_error
        { s with ext_db := s.ext_db.update_record ext_id "" "" } ext_id "Invalid" msg,
      by simp [ExtensionRunner.run, h], rfl, not_running_none s ext_id h, ?_, ?_⟩ <;>
      simp [ExtensionRunner.set_extension_error, ExtensionDb.update_record, ExtensionDb.save]
  · refine ⟨ExtensionRunner.set_extension_error
        { s with ext_db := s.ext_db.update_record ext_id "" "" } ext_id "Incompatible" msg,
      by simp [ExtensionRunner.run, h], rfl, not_running_none s ext_id h, ?_, ?_⟩ <;>
      simp [ExtensionRunner.set_extension_error, ExtensionDb.update_record, ExtensionDb.save]

/-- Claim C2, witness: both failure classifications at a concrete id and
message on the initial state. -/
theorem run_manifest_failure_classification_witness :
    ExtensionRunner.is_running init_state "ext" = false ∧
    ((∃ s1, ExtensionRunner.run init_state "ext" (.invalid "oops") spawn_ok = .ok s1 ∧
       s1.extension_procs = init_state.extension_procs ∧
       s1.extension_procs "ext" = none ∧
       s1.ext_db.mem "ext" = ⟨"Invalid", "oops"⟩ ∧
       s1.ext_db.disk "ext" = ⟨"Invalid", "oops"⟩) ∧
    (∃ s2, ExtensionRunner.run init_state "ext" (.incompatible "oops") spawn_ok = .ok s2 ∧
       s2.extension_procs = init_state.extension_procs ∧
       s2.extension_procs "ext" = none ∧
       s2.ext_db.mem "ext" = ⟨"Incompatible", "oops"⟩ ∧
       s2.ext_db.disk "ext" = ⟨"Incompatible", "oops"⟩)) :=
  ⟨by decide, run_manifest_failure_classification init_state "ext" "oops" spawn_ok (by decide)⟩

/-- Claim C3 (amended): for a non-signaled exit with uptime < 1 second whose
ProcessRecord is present and matches, the classification inspects the single
retained stderr line.  If it contains the module-not-found marker and the
quote-split yields a quoted name: the host namespace `ulauncher` gives
`Incompatible` with the generic exited-instantly message, and any other
NONEMPTY name gives `MissingModule` with the name as the message (an empty
quoted name writes no record — see the counterexample — and a marker without
any quote raises, see C9).  A line without the marker gives `Terminated`
with the generic message. -/
theorem instant_crash_classification
    (s : RunnerState) (sub : Subprocess) (ext_id : String) (now : ℚ)
    (proc : ExtensionProc) (lasterr name : String)
    (hp : s.extension_procs ext_id = some proc)
    (hsid : proc.subprocess.sid = sub.sid)
    (hsig : sub.signaled = false)
    (hup : now - proc.start_time < 1)
    (hl : lasterr = String.intercalate "\n" proc.recent_errors) :
    (str_contains lasterr "ModuleNotFoundError" = true →
      (py_split_char quote_char lasterr.toList).get? 1 = some name →
      ((name = "ulauncher" →
         ∃ s', ExtensionRunner.handle_exit s sub ext_id now = .ok s' ∧
           s'.ext_db.mem ext_id =
             ⟨"Incompatible", ExtensionRunner.instant_msg ext_id sub.exit_status⟩ ∧
           s'.ext_db.disk ext_id = s'.ext_db.mem ext_id ∧
           s'.extension_procs ext_id = none) ∧
       (name ≠ "ulauncher" → name ≠ "" →
         ∃ s', ExtensionRunner.handle_exit s sub ext_id now = .ok s' ∧
           s'.ext_db.mem ext_id = ⟨"MissingModule", name⟩ ∧
           s'.ext_db.disk ext_id = s'.ext_db.mem ext_id ∧
           s'.extension_procs ext_id = none))) ∧
    (str_contains lasterr "ModuleNotFoundError" = false →
      ∃ s', ExtensionRunner.handle_exit s sub ext_id now = .ok s' ∧
        s'.ext_db.mem ext_id =
          ⟨"Terminated", ExtensionRunner.instant_msg ext_id sub.exit_status⟩ ∧
        s'.ext_db.disk ext_id = s'.ext_db.mem ext_id ∧
        s'.extension_procs ext_id = none) := by
  have hbranch : ExtensionRunner.handle_exit s sub ext_id now =
      (if str_contains lasterr "ModuleNotFoundError" then
        match (py_split_char quote_char lasterr.toList).get? 1 with
        | none => .error ("IndexError", s)
        | some package_name =>
          if package_name = "ulauncher" then
            .ok (ExtensionRunner.pop_proc (ExtensionRunner.set_extension_error s ext_id
              "Incompatible" (ExtensionRunner.instant_msg ext_id sub.exit_status)) ext_id)
          else if !package_name.isEmpty then
            .ok (ExtensionRunner.pop_proc (ExtensionRunner.set_extension_error s ext_id
              "MissingModule" package_name) ext_id)
          else .ok (ExtensionRunner.pop_proc s ext_id)
      else .ok (ExtensionRunner.pop_proc (ExtensionRunner.set_extension_error s ext_id
        "Terminated" (ExtensionRunner.instant_msg ext_id sub.exit_status)) ext_id)) := by
    rw [ExtensionRunner.handle_exit, hsig]
    simp only [Bool.false_and, Bool.false_eq_true, if_false, hp, hsid, ne_eq,
      not_true_eq_false, if_pos hup, ← hl]
  constructor
  · intro hm hname
    rw [hbranch, if_pos hm, hname]
    dsimp only
    constructor
    · intro hu
      rw [if_pos hu]
      refine ⟨_, rfl, ?_, ?_, ?_⟩ <;>
        simp [ExtensionRunner.pop_proc, ExtensionRunner.set_extension_error,
          ExtensionDb.update_record, ExtensionDb.save]
    · intro hu hne
      rw [if_neg hu]
      have : (!name.isEmpty) = true := by
        cases hn : name.isEmpty
        · rfl
        · exact absurd ((String.isEmpty_iff name).mp hn) hne
      rw [if_pos this]
      refine ⟨_, rfl, ?_, ?_, ?_⟩ <;>
        simp [ExtensionRunner.pop_proc, ExtensionRunner.set_extension_error,
          ExtensionDb.update_record, ExtensionDb.save]
  · intro hm
    rw [hbranch, if_neg (by simp [hm])]
    refine ⟨_, rfl, ?_, ?_, ?_⟩ <;>
      simp [ExtensionRunner.pop_proc, ExtensionRunner.set_extension_error,
        ExtensionDb.update_record, ExtensionDb.save]

/-- Claim C3, witness: a process that writes
`ModuleNotFoundError: No module named 'requests'` to stderr and exits with
code 1 within 1 second yields a persisted `MissingModule` record whose
message is `requests`, and its ProcessRecord is removed. -/
theorem instant_crash_classification_witness :
    ∃ s', ExtensionRunner.handle_exit w3_state w3_sub "myext" 0 = .ok s' ∧
      s'.ext_db.mem "myext" = ⟨"MissingModule", "requests"⟩ ∧
      s'.ext_db.disk "myext" = s'.ext_db.mem "myext" ∧
      s'.extension_procs "myext" = none :=
  ((instant_crash_classification w3_state w3_sub "myext" 0 w3_proc
      "ModuleNotFoundError: No module named \x27requests\x27" "requests"
      rfl rfl rfl (by norm_num [w3_proc]) (by decide)).1 (by decide) (by decide)).2
    (by decide) (by decide)

/-- Claim C3, counterexample to the claim as stated: a retained stderr line
containing the marker whose quoted module name is EMPTY.  The claim predicts
a `MissingModule` record with the empty message; the code takes neither the
`Incompatible` nor the (`elif package_name:`) `MissingModule` branch, so it
pops the record and writes no classification at all. -/
theorem instant_crash_empty_module_counterexample :
    str_contains (String.intercalate "\n" c3_proc.recent_errors) "ModuleNotFoundError" = true ∧
    (py_split_char quote_char
      (String.intercalate "\n" c3_proc.recent_errors).toList).get? 1 = some "" ∧
    ExtensionRunner.handle_exit c3_state c3_sub "e" 0 =
      .ok (ExtensionRunner.pop_proc c3_state "e") ∧
    ((ExtensionRunner.pop_proc c3_state "e").ext_db.mem "e").error_type = "" ∧
    ((ExtensionRunner.pop_proc c3_state "e").ext_db.disk "e").error_type = "" :=
  ⟨by decide, by decide,
   by norm_num [ExtensionRunner.handle_exit, c3_state, c3_proc, c3_sub]; rfl,
   by decide, by decide⟩

/-- Claim C4: a non-signaled exit with uptime ≥ 1 second whose ProcessRecord
is present and matches is classified `Exited`, the persisted message
contains the numeric exit code and the uptime, and the record is removed. -/
theorem slow_exit_classified_exited
    (s : RunnerState) (sub : Subprocess) (ext_id : String) (now : ℚ)
    (proc : ExtensionProc)
    (hp : s.extension_procs ext_id = some proc)
    (hsid : proc.subprocess.sid = sub.sid)
    (hsig : sub.signaled = false)
    (hup : 1 ≤ now - proc.start_time) :
    ∃ s', ExtensionRunner.handle_exit s sub ext_id now = .ok s' ∧
      s'.ext_db.mem ext_id =
        ⟨"Exited", ExtensionRunner.exited_msg ext_id sub.exit_status (now - proc.start_time)⟩ ∧
      s'.ext_db.disk ext_id = s'.ext_db.mem ext_id ∧
      s'.extension_procs ext_id = none ∧
      (toString sub.exit_status).data <:+:
        (ExtensionRunner.exited_msg ext_id sub.exit_status (now - proc.start_time)).data ∧
      (toString (now - proc.start_time)).data <:+:
        (ExtensionRunner.exited_msg ext_id sub.exit_status (now - proc.start_time)).data := by
  have hred : ExtensionRunner.handle_exit s sub ext_id now =
      .ok (ExtensionRunner.pop_proc (ExtensionRunner.set_extension_error s ext_id "Exited"
        (ExtensionRunner.exited_msg ext_id sub.exit_status (now - proc.start_time))) ext_id) := by
    rw [ExtensionRunner.handle_exit, hsig]
    simp only [Bool.false_and, Bool.false_eq_true, if_false, hp, hsid, ne_eq,
      not_true_eq_false, if_neg (not_lt.mpr hup)]
  refine ⟨_, hred, ?_, ?_, ?_, ?_, ?_⟩
  · simp [ExtensionRunner.pop_proc, ExtensionRunner.set_extension_error,
      ExtensionDb.update_record, ExtensionDb.save]
  · simp [ExtensionRunner.pop_proc, ExtensionRunner.set_extension_error,
      ExtensionDb.update_record, ExtensionDb.save]
  · simp [ExtensionRunner.pop_proc]
  · exact ⟨("Extension \x22" ++ ext_id ++ "\x22 exited with code ").data,
      (" after " ++ toString (now - proc.start_time) ++ " seconds.").data,
      by simp [ExtensionRunner.exited_msg, String.data_append, List.append_assoc]⟩
  · exact ⟨("Extension \x22" ++ ext_id ++ "\x22 exited with code " ++ toString sub.exit_status
        ++ " after ").data, (" seconds.").data,
      by simp [ExtensionRunner.exited_msg, String.data_append, List.append_assoc]⟩

/-- Claim C4, witness: a process exiting with code 0 after 5 seconds yields
an `Exited` record whose message contains the code and the uptime. -/
theorem slow_exit_classified_exited_witness :
    w4_state.extension_procs "e" = some w4_proc ∧
    (1 : ℚ) ≤ 5 - w4_proc.start_time ∧
    (∃ s', ExtensionRunner.handle_exit w4_state w4_sub "e" 5 = .ok s' ∧
      s'.ext_db.mem "e" =
        ⟨"Exited", ExtensionRunner.exited_msg "e" w4_sub.exit_status (5 - w4_proc.start_time)⟩ ∧
      s'.ext_db.disk "e" = s'.ext_db.mem "e" ∧
      s'.extension_procs "e" = none ∧
      (toString w4_sub.exit_status).data <:+:
        (ExtensionRunner.exited_msg "e" w4_sub.exit_status (5 - w4_proc.start_time)).data ∧
      (toString (5 - w4_proc.start_time)).data <:+:
        (ExtensionRunner.exited_msg "e" w4_sub.exit_status (5 - w4_proc.start_time)).data) :=
  ⟨rfl, by norm_num [w4_proc],
   slow_exit_classified_exited w4_state w4_sub "e" 5 w4_proc rfl rfl rfl (by norm_num [w4_proc])⟩

/-- Claim C5: `stop` on a running extension schedules exactly one delayed
liveness check (the `timer(0.5, ...)` one-shot); when the check fires with
the process still alive exactly one SIGKILL is sent, and when the process
has already exited no signal is sent (and nothing is raised — the function
is total). -/
theorem stop_schedules_single_kill_check :
    (∀ (s : RunnerState) (ext_id : String) (proc : ExtensionProc),
      s.extension_procs ext_id = some proc →
      (ExtensionRunner.stop s ext_id).2.filter StopAction.is_schedule =
        [.schedule_check (1/2) proc.subprocess.sid]) ∧
    (∀ proc : ExtensionProc,
      ExtensionRunner.confirm_termination proc true =
        [.send_signal proc.subprocess.sid SIGKILL]) ∧
    (∀ proc : ExtensionProc, ExtensionRunner.confirm_termination proc false = []) := by
  refine ⟨fun s ext_id proc hp => ?_, fun proc => rfl, fun proc => rfl⟩
  simp [ExtensionRunner.stop, hp, StopAction.is_schedule, List.filter]

/-- Claim C5, witness: the scheduling and both liveness-check outcomes at a
concrete running extension. -/
theorem stop_schedules_single_kill_check_witness :
    w5_state.extension_procs "e" = some w5_proc ∧
    (ExtensionRunner.stop w5_state "e").2.filter StopAction.is_schedule =
      [.schedule_check (1/2) w5_proc.subprocess.sid] ∧
    ExtensionRunner.confirm_termination w5_proc true =
      [.send_signal w5_proc.subprocess.sid SIGKILL] ∧
    ExtensionRunner.confirm_termination w5_proc false = [] :=
  ⟨rfl, stop_schedules_single_kill_check.1 w5_state "e" w5_proc rfl,
   stop_schedules_single_kill_check.2.1 w5_proc,
   stop_schedules_single_kill_check.2.2 w5_proc⟩

/-- Claim C6 (amended): the stderr listener re-arms after EVERY completed
read while the ProcessRecord is present — including an end-of-stream
completion that delivered no line — and stops re-arming exactly when the
record has been removed. -/
theorem handle_stderr_rearm_iff_record_present
    (s : RunnerState) (ext_id : String) (output : Option String) :
    (ExtensionRunner.handle_stderr s ext_id output).2 = (s.extension_procs ext_id).isSome := by
  cases hp : s.extension_procs ext_id <;> simp [ExtensionRunner.handle_stderr, hp]

/-- Claim C6, counterexample to the claim as stated: an end-of-stream
completion (`output = none`) with the ProcessRecord still present.  The
claim predicts no further read is issued; the code calls
`read_stderr_line` again (the re-arm flag is true). -/
theorem stderr_eos_rearm_counterexample :
    (c6_state.extension_procs "e").isSome = true ∧
    (ExtensionRunner.handle_stderr c6_state "e" none).2 = true :=
  ⟨rfl, rfl⟩

/-- Claim C7: `stop` on a running extension leaves `is_running` false the
moment it returns, and its action sequence removes the ProcessRecord
(index 0) strictly before the polite SIGTERM (index 1); no signal precedes
the removal, and no OS confirmation is consulted. -/
theorem stop_removes_before_signal
    (s : RunnerState) (ext_id : String) (proc : ExtensionProc)
    (hp : s.extension_procs ext_id = some proc) :
    ExtensionRunner.is_running (ExtensionRunner.stop s ext_id).1 ext_id = false ∧
    (ExtensionRunner.stop s ext_id).2.get? 0 = some (.pop_record ext_id) ∧
    (ExtensionRunner.stop s ext_id).2.get? 1 =
      some (.send_signal proc.subprocess.sid SIGTERM) ∧
    ((ExtensionRunner.stop s ext_id).2.take 1).filter StopAction.is_send = [] := by
  simp [ExtensionRunner.stop, hp, ExtensionRunner.is_running, ExtensionRunner.pop_proc,
    StopAction.is_send, List.filter]

/-- Claim C7, witness: the removal-before-signal ordering at a concrete
running extension. -/
theorem stop_removes_before_signal_witness :
    w5_state.extension_procs "e" = some w5_proc ∧
    (ExtensionRunner.is_running (ExtensionRunner.stop w5_state "e").1 "e" = false ∧
    (ExtensionRunner.stop w5_state "e").2.get? 0 = some (.pop_record "e") ∧
    (ExtensionRunner.stop w5_state "e").2.get? 1 =
      some (.send_signal w5_proc.subprocess.sid SIGTERM) ∧
    ((ExtensionRunner.stop w5_state "e").2.take 1).filter StopAction.is_send = []) :=
  ⟨rfl, stop_removes_before_signal w5_state "e" w5_proc rfl⟩

/-- Claim C8: when the spawn succeeds but provides no readable error stream,
`run` raises the assertion-style programmer error instead of returning: the
process table is untouched, the durable error store is untouched, and the
in-memory record holds only the reset (no taxonomy classification). -/
theorem run_missing_stderr_pipe_fatal
    (s : RunnerState) (ext_id : String) (tr pr : List (String × String)) (sp : SpawnOutcome)
    (h : ExtensionRunner.is_running s ext_id = false)
    (hse : sp.spawn_error = none)
    (hpipe : sp.has_stderr_pipe = false) :
    ∃ s', ExtensionRunner.run s ext_id (.ok tr pr) sp =
        .error
          ("AssertionError: Subprocess must be created with Gio.SubprocessFlags.STDERR_PIPE",
            s') ∧
      s'.extension_procs = s.extension_procs ∧
      s'.extension_procs ext_id = none ∧
      s'.ext_db.disk = s.ext_db.disk ∧
      (s'.ext_db.mem ext_id).error_type = "" := by
  refine ⟨{ s with ext_db := s.ext_db.update_record ext_id "" "" }, ?_, rfl,
    not_running_none s ext_id h, rfl, ?_⟩
  · simp [ExtensionRunner.run, h, hse, hpipe]
  · simp [ExtensionDb.update_record]

/-- Claim C8, witness: the fatal assertion at a concrete spawn outcome with
no stderr pipe. -/
theorem run_missing_stderr_pipe_fatal_witness :
    ExtensionRunner.is_running init_state "e" = false ∧
    spawn_nopipe.spawn_error = none ∧ spawn_nopipe.has_stderr_pipe = false ∧
    (∃ s', ExtensionRunner.run init_state "e" (.ok [] []) spawn_nopipe =
        .error
          ("AssertionError: Subprocess must be created with Gio.SubprocessFlags.STDERR_PIPE",
            s') ∧
      s'.extension_procs = init_state.extension_procs ∧
      s'.extension_procs "e" = none ∧
      s'.ext_db.disk = init_state.ext_db.disk ∧
      (s'.ext_db.mem "e").error_type = "") :=
  ⟨by decide, rfl, rfl,
   run_missing_stderr_pipe_fatal init_state "e" [] [] spawn_nopipe (by decide) rfl rfl⟩

/-- Claim C9: the module-name extraction is partial.  A matching
ProcessRecord whose retained stderr line contains `ModuleNotFoundError` but
no single quote makes `handle_exit` (uptime < 1 s) raise `IndexError` on
element 1 of the quote-split: no classification is written (memory or disk)
and the ProcessRecord stays in the table. -/
theorem instant_crash_unquoted_marker_index_error :
    str_contains (String.intercalate "\n" c9_proc.recent_errors) "ModuleNotFoundError" = true ∧
    (py_split_char quote_char
      (String.intercalate "\n" c9_proc.recent_errors).toList).get? 1 = none ∧
    ExtensionRunner.handle_exit c9_state c9_sub "e" (1/2) = .error ("IndexError", c9_state) ∧
    (c9_state.extension_procs "e").isSome = true ∧
    (c9_state.ext_db.mem "e").error_type = "" ∧
    (c9_state.ext_db.disk "e").error_type = "" :=
  ⟨by decide, by decide,
   by norm_num [ExtensionRunner.handle_exit, c9_state, c9_proc, c9_sub]; rfl,
   by decide, by decide, by decide⟩

/-- Claim C10: stopping a running extension never produces an error
diagnosis.  `stop` leaves the error store untouched and removes the record,
so a later exit notification for the stopped process (here: a signaled
exit) finds no record and returns with the state — including the persisted
ErrorRecord — exactly as it was. -/
theorem stop_then_exit_no_error_write
    (s : RunnerState) (ext_id : String) (sub : Subprocess) (now : ℚ)
    (h : ExtensionRunner.is_running s ext_id = true) :
    (ExtensionRunner.stop s ext_id).1.ext_db = s.ext_db ∧
    ExtensionRunner.is_running (ExtensionRunner.stop s ext_id).1 ext_id = false ∧
    ExtensionRunner.handle_exit (ExtensionRunner.stop s ext_id).1 sub ext_id now =
      .ok (ExtensionRunner.stop s ext_id).1 := by
  rw [ExtensionRunner.is_running] at h
  obtain ⟨proc, hp⟩ := Option.isSome_iff_exists.mp h
  have hstop : (ExtensionRunner.stop s ext_id).1 = ExtensionRunner.pop_proc s ext_id := by
    simp [ExtensionRunner.stop, hp]
  have hnone : (ExtensionRunner.pop_proc s ext_id).extension_procs ext_id = none := by
    simp [ExtensionRunner.pop_proc]
  rw [hstop]
  refine ⟨rfl, ?_, ?_⟩
  · simp [ExtensionRunner.is_running, hnone]
  · simp [ExtensionRunner.handle_exit, hnone]

/-- Claim C10, witness: a stopped extension whose process is later reported
signaled; the exit handler changes nothing. -/
theorem stop_then_exit_no_error_write_witness :
    ExtensionRunner.is_running w5_state "e" = true ∧
    ((ExtensionRunner.stop w5_state "e").1.ext_db = w5_state.ext_db ∧
    ExtensionRunner.is_running (ExtensionRunner.stop w5_state "e").1 "e" = false ∧
    ExtensionRunner.handle_exit (ExtensionRunner.stop w5_state "e").1 w10_sub "e" 3 =
      .ok (ExtensionRunner.stop w5_state "e").1) :=
  ⟨rfl, stop_then_exit_no_error_write w5_state "e" w10_sub 3 rfl⟩
